import Mathlib

/-!
Shallow embedding of the YouTube data-acquisition pipeline from
`youtube_scrappers.py` and `run_roast_improve.py`.

Modelling conventions:
* HTTP traffic is represented by oracle functions passed in explicitly.
  `youtube_get_data_by_url` takes the environment's API key and an
  HTTP transport oracle, and returns the parsed body together with the
  list of requests it actually issued (so "no request was attempted"
  is a provable statement).
* The higher-level stages (`get_all_video_ids_from_playlist`,
  `get_video_details`, `get_comments_by_video_id`) quantify over the
  already-parsed per-request responses the upstream API delivers, since
  every claim about them quantifies over arbitrary API responses.
* Python `dict.get(k)` becomes `Option`; `dict.get(k, d)` becomes
  `Option.getD`; Python truthiness of a string (`a or b`) is modelled
  by an explicit empty-string test; `int(...)` of an upstream numeric
  string is the parsed integer, hence `Int`.
-/

/-- One query parameter of an HTTP GET request. -/
abbrev Param := String × String

/-- An HTTP GET request to the YouTube Data API: endpoint name plus query
parameters, as assembled by `youtube_get_data_by_url`. -/
structure HttpRequest where
  endpoint : String
  params : List Param
  deriving DecidableEq

/-- The custom exception `YouTubeAPIError` (single flat kind carrying a
human-readable message). -/
structure YouTubeAPIError where
  message : String
  deriving DecidableEq

/-- The transport-level reply to one GET: `ok` mirrors `resp.ok`,
`status_code` and `text` feed the error message, `json` is the parsed body
(the body type is a parameter; each endpoint instantiates it). -/
structure HttpResponse (β : Type) where
  ok : Bool
  status_code : Nat
  text : String
  json : β

/-- The message raised by `youtube_get_data_by_url` when the credential is
absent (Python: falsy, i.e. unset or empty). -/
def apiKeyMissingMsg : String :=
  "YOUTUBE_API_KEY is not set. Export it in your shell or environment."

/-- Embedding of `youtube_get_data_by_url` (youtube_scrappers.py lines
20-52).  `apiKey` is `os.getenv("YOUTUBE_API_KEY")`; `http` is the
transport.  Python's `if not api_key` is true for both `None` and `""`.
On success the key is appended to the params and one request is issued;
the returned list records every request issued during the call.  The
side-channel dump to `./data/...json` is an external file-writing
collaborator and is not modelled. -/
def youtube_get_data_by_url {β : Type} (apiKey : Option String)
    (http : HttpRequest → HttpResponse β) (endpoint : String)
    (params : List Param) : Except YouTubeAPIError β × List HttpRequest :=
  match apiKey with
  | none => (Except.error ⟨apiKeyMissingMsg⟩, [])
  | some key =>
    if key = "" then
      (Except.error ⟨apiKeyMissingMsg⟩, [])
    else
      let req : HttpRequest := ⟨endpoint, params ++ [("key", key)]⟩
      let resp := http req
      if resp.ok then
        (Except.ok resp.json, [req])
      else
        (Except.error ⟨"Request to " ++ endpoint ++ " failed with status "
          ++ toString resp.status_code ++ ": " ++ resp.text⟩, [req])

/-!
## Playlist Paginator (`get_all_video_ids_from_playlist`, lines 87-125)

The upstream playlist is modelled as the sequence of pages the API
delivers: each page is the list of video IDs of its `items` (each Python
item's `item["contentDetails"]["videoId"]`).  The chain of continuation
tokens is exactly what links consecutive pages, so the delivered sequence
ends at the first page carrying no `nextPageToken`.
-/

/-- The inner `for item in data.get("items", [])` loop body: append each
video ID to the accumulator and, when a maximum is set and the
accumulator has reached it, return immediately (`Sum.inl`); otherwise
hand the grown accumulator back to the while-loop (`Sum.inr`).  Python's
test is `len(video_ids) >= max_videos_num` AFTER the append. -/
def processItems (max_videos_num : Option Nat) (acc : List String) :
    List String → List String ⊕ List String
  | [] => Sum.inr acc
  | vid :: rest =>
    let acc2 := acc ++ [vid]
    match max_videos_num with
    | some m =>
      if m ≤ acc2.length then Sum.inl acc2
      else processItems max_videos_num acc2 rest
    | none => processItems max_videos_num acc2 rest

/-- The `while True` loop over the delivered pages: run the item loop on
the current page; an early return ends the whole function, otherwise
continue with the next page; after the last page the accumulator is
returned. -/
def pagesLoop (max_videos_num : Option Nat) (acc : List String) :
    List (List String) → List String
  | [] => acc
  | page :: rest =>
    match processItems max_videos_num acc page with
    | Sum.inl ids => ids
    | Sum.inr acc2 => pagesLoop max_videos_num acc2 rest

/-- Embedding of `get_all_video_ids_from_playlist`: traverse the delivered
pages starting from an empty accumulator. -/
def get_all_video_ids_from_playlist (pages : List (List String))
    (max_videos_num : Option Nat) : List String :=
  pagesLoop max_videos_num [] pages

/-!
## Chunking (`chunked`, lines 128-139)

`[lst[i : i + size] for i in range(0, len(lst), size)]`.
`range(0, stop, step)` with `step ≥ 1` is `[0, step, 2*step, ...]`
with `ceil(stop/step) = (stop + step - 1) / step` elements, and the slice
`lst[i : i + size]` is `(lst.drop i).take size`.  (For `step = 0` Python
raises `ValueError`; both claims about `chunked` assume a positive size.)
-/

/-- `range(0, stop, step)` for `step ≥ 1`. -/
def pyRange (stop step : Nat) : List Nat :=
  (List.range ((stop + step - 1) / step)).map (fun k => k * step)

/-- Embedding of `chunked` (identical text in both source files). -/
def chunked {α : Type} (lst : List α) (size : Nat) : List (List α) :=
  (pyRange lst.length size).map (fun i => (lst.drop i).take size)

/-!
## Comment Sampler (`get_comments_by_video_id`, lines 185-247)

The response to the single `commentThreads` request is modelled as the
list `data.get("items", [])`; each item is collapsed to the two pieces the
code reads: `item["snippet"]["topLevelComment"]["snippet"]` and
`item.get("replies", {}).get("comments", [])` (absent `replies` ≡ `[]`).
-/

/-- A comment snippet as read by the code: the four `.get` fields. -/
structure CommentSnippet where
  textDisplay : Option String
  textOriginal : Option String
  likeCount : Option Int
  publishedAt : Option String
  deriving DecidableEq

/-- One item of the `commentThreads` response. -/
structure ThreadItem where
  topLevelComment : CommentSnippet
  replies : List CommentSnippet
  deriving DecidableEq

/-- The three-field dictionary built for a top-level comment or a reply. -/
structure CommentSummary where
  text : String
  likeCount : Option Int
  publishedAt : Option String
  deriving DecidableEq

/-- The thread dictionary `{"topLevelComment": ..., "replies": [...]}`. -/
structure CommentThread where
  topLevelComment : CommentSummary
  replies : List CommentSummary
  deriving DecidableEq

/-- Python `a or b` for `a : Optional[str]`: `a` is kept when it is a
non-empty string (truthy), otherwise the fallback is used. -/
def pyStrOr (a : Option String) (b : String) : String :=
  match a with
  | some s => if s = "" then b else s
  | none => b

/-- The summary built from one snippet:
`snippet.get("textDisplay") or snippet.get("textOriginal") or ""`,
plus like count and publish timestamp. -/
def summarize (s : CommentSnippet) : CommentSummary :=
  { text := pyStrOr s.textDisplay (pyStrOr s.textOriginal "")
    likeCount := s.likeCount
    publishedAt := s.publishedAt }

/-- Embedding of `get_comments_by_video_id`.  `video_id` and
`max_topLevelComments` only parameterise the request (the latter is sent
as `maxResults`); the body never truncates the top-level items it
receives, while replies are sliced to `max_replies` in response order. -/
def get_comments_by_video_id (video_id : String)
    (max_topLevelComments max_replies : Nat)
    (items : List ThreadItem) : List CommentThread :=
  items.map (fun item =>
    { topLevelComment := summarize item.topLevelComment
      replies := (item.replies.take max_replies).map summarize })

/-!
## Video Enricher (`get_video_details`)

One item of a `videos` batch response carries `item["id"]` plus the three
parts the code indexes.  Required indexing (`item["id"]`,
`item["snippet"]`, ...) becomes a structure field; `.get` access becomes
`Option`; `.get(k, default)` becomes `Option.getD`.  The numeric
statistics values are the integers `int(...)` parses from the upstream
strings (`Int`: the code imposes no sign restriction).
-/

/-- `item["snippet"]` as read by the code. -/
structure Snippet where
  title : Option String
  description : Option String
  publishedAt : Option String
  channelId : Option String
  channelTitle : Option String
  tags : Option (List String)
  categoryId : Option String
  thumbnails : Option (List (String × String))
  deriving DecidableEq

/-- `item["contentDetails"]` as read by the code. -/
structure ContentDetails where
  duration : Option String
  definition : Option String
  caption : Option String
  deriving DecidableEq

/-- `item["statistics"]` as read by the code (parsed integers). -/
structure Statistics where
  viewCount : Option Int
  likeCount : Option Int
  commentCount : Option Int
  deriving DecidableEq

/-- One item of a `videos` batch response. -/
structure VideoItem where
  id : String
  snippet : Snippet
  contentDetails : ContentDetails
  statistics : Statistics
  deriving DecidableEq

/-- The record dictionary built by `youtube_scrappers.get_video_details`
(lines 157-179), `comments` included. -/
structure VideoRecord where
  id : String
  title : Option String
  description : Option String
  publishedAt : Option String
  channelId : Option String
  channelTitle : Option String
  tags : List String
  categoryId : Option String
  thumbnails : List (String × String)
  duration : Option String
  definition : Option String
  caption : Option String
  viewCount : Int
  likeCount : Int
  commentCount : Int
  comments : List CommentThread
  deriving DecidableEq

/-- Field extraction shared by both versions, plus the `comments` entry
added by the `youtube_scrappers.py` version. -/
def mkRecord (item : VideoItem) (comments : List CommentThread) : VideoRecord :=
  { id := item.id
    title := item.snippet.title
    description := item.snippet.description
    publishedAt := item.snippet.publishedAt
    channelId := item.snippet.channelId
    channelTitle := item.snippet.channelTitle
    tags := item.snippet.tags.getD []
    categoryId := item.snippet.categoryId
    thumbnails := item.snippet.thumbnails.getD []
    duration := item.contentDetails.duration
    definition := item.contentDetails.definition
    caption := item.contentDetails.caption
    viewCount := item.statistics.viewCount.getD 0
    likeCount := item.statistics.likeCount.getD 0
    commentCount := item.statistics.commentCount.getD 0
    comments := comments }

/-- The `try: comments = get_comments_by_video_id(item["id"]) except
YouTubeAPIError: comments = []` block.  `commentsApi` is the outcome of
the `commentThreads` HTTP call for a video ID (its failure is the
`YouTubeAPIError` the `except` catches); on success the response items
are processed with the default caps 20 and 2. -/
def fetchCommentsCaught
    (commentsApi : String → Except YouTubeAPIError (List ThreadItem))
    (video_id : String) : List CommentThread :=
  match commentsApi video_id with
  | Except.ok items => get_comments_by_video_id video_id 20 2 items
  | Except.error _ => []

/-- Embedding of `youtube_scrappers.get_video_details` (lines 142-182):
for each 50-chunk of the IDs, one `videos` request (`api chunk` is that
response's `items`), and for each response item one record, with the
per-video comment fetch guarded as in the source.  The accumulator
`all_videos` is the concatenation of the per-chunk item maps. -/
def get_video_details (api : List String → List VideoItem)
    (commentsApi : String → Except YouTubeAPIError (List ThreadItem))
    (video_ids : List String) : List VideoRecord :=
  ((chunked video_ids 50).map (fun chunk =>
    (api chunk).map (fun item =>
      mkRecord item (fetchCommentsCaught commentsApi item.id)))).flatten

namespace RunRoastImprove

/-- The record dictionary built by `run_roast_improve.get_video_details`
(lines 165-181): the same fifteen entries, no `comments` entry. -/
structure VideoRecord where
  id : String
  title : Option String
  description : Option String
  publishedAt : Option String
  channelId : Option String
  channelTitle : Option String
  tags : List String
  categoryId : Option String
  thumbnails : List (String × String)
  duration : Option String
  definition : Option String
  caption : Option String
  viewCount : Int
  likeCount : Int
  commentCount : Int
  deriving DecidableEq

/-- Record construction of the `run_roast_improve.py` version. -/
def mkRecord (item : VideoItem) : VideoRecord :=
  { id := item.id
    title := item.snippet.title
    description := item.snippet.description
    publishedAt := item.snippet.publishedAt
    channelId := item.snippet.channelId
    channelTitle := item.snippet.channelTitle
    tags := item.snippet.tags.getD []
    categoryId := item.snippet.categoryId
    thumbnails := item.snippet.thumbnails.getD []
    duration := item.contentDetails.duration
    definition := item.contentDetails.definition
    caption := item.contentDetails.caption
    viewCount := item.statistics.viewCount.getD 0
    likeCount := item.statistics.likeCount.getD 0
    commentCount := item.statistics.commentCount.getD 0 }

/-- Embedding of `run_roast_improve.get_video_details` (lines 144-184):
same chunking and batch requests, but no comment fetch at all. -/
def get_video_details (api : List String → List VideoItem)
    (video_ids : List String) : List VideoRecord :=
  ((chunked video_ids 50).map (fun chunk =>
    (api chunk).map (fun item => mkRecord item))).flatten

end RunRoastImprove

/-- Dropping the `comments` entry of a `youtube_scrappers` record yields a
record of the `run_roast_improve` shape. -/
def dropComments (r : VideoRecord) : RunRoastImprove.VideoRecord :=
  { id := r.id
    title := r.title
    description := r.description
    publishedAt := r.publishedAt
    channelId := r.channelId
    channelTitle := r.channelTitle
    tags := r.tags
    categoryId := r.categoryId
    thumbnails := r.thumbnails
    duration := r.duration
    definition := r.definition
    caption := r.caption
    viewCount := r.viewCount
    likeCount := r.likeCount
    commentCount := r.commentCount }

/-!
Both `get_video_details` functions return Python dictionaries.  To compare
the two versions' return values directly (they build dictionaries with
different key sets), each record is rendered as the association list of
its dictionary, in insertion order.
-/

/-- The value types occurring in the record dictionaries. -/
inductive Val where
  | vnone : Val
  | vstr : String → Val
  | vint : Int → Val
  | vtags : List String → Val
  | vthumbs : List (String × String) → Val
  | vcomments : List CommentThread → Val
  deriving DecidableEq

/-- A Python value that is either a string or `None`. -/
def optVal : Option String → Val
  | some s => Val.vstr s
  | none => Val.vnone

/-- The dictionary built by the `youtube_scrappers.py` version, keys in
insertion order (`comments` is inserted last, after the `try` block). -/
def VideoRecord.toDict (r : VideoRecord) : List (String × Val) :=
  [("id", Val.vstr r.id),
   ("title", optVal r.title),
   ("description", optVal r.description),
   ("publishedAt", optVal r.publishedAt),
   ("channelId", optVal r.channelId),
   ("channelTitle", optVal r.channelTitle),
   ("tags", Val.vtags r.tags),
   ("categoryId", optVal r.categoryId),
   ("thumbnails", Val.vthumbs r.thumbnails),
   ("duration", optVal r.duration),
   ("definition", optVal r.definition),
   ("caption", optVal r.caption),
   ("viewCount", Val.vint r.viewCount),
   ("likeCount", Val.vint r.likeCount),
   ("commentCount", Val.vint r.commentCount),
   ("comments", Val.vcomments r.comments)]

/-- The dictionary built by the `run_roast_improve.py` version: the same
fifteen entries, and no `comments` entry. -/
def RunRoastImprove.VideoRecord.toDict (r : RunRoastImprove.VideoRecord) :
    List (String × Val) :=
  [("id", Val.vstr r.id),
   ("title", optVal r.title),
   ("description", optVal r.description),
   ("publishedAt", optVal r.publishedAt),
   ("channelId", optVal r.channelId),
   ("channelTitle", optVal r.channelTitle),
   ("tags", Val.vtags r.tags),
   ("categoryId", optVal r.categoryId),
   ("thumbnails", Val.vthumbs r.thumbnails),
   ("duration", optVal r.duration),
   ("definition", optVal r.definition),
   ("caption", optVal r.caption),
   ("viewCount", Val.vint r.viewCount),
   ("likeCount", Val.vint r.likeCount),
   ("commentCount", Val.vint r.commentCount)]

/-!
## Concrete fixtures

Small concrete API oracles and items used to instantiate theorems and to
exhibit counterexamples.
-/

/-- A snippet with every optional field absent. -/
def emptySnippet : Snippet := ⟨none, none, none, none, none, none, none, none⟩

/-- Content details with every optional field absent. -/
def emptyCD : ContentDetails := ⟨none, none, none⟩

/-- Statistics with every field absent. -/
def emptyStats : Statistics := ⟨none, none, none⟩

/-- A bare response item for video "a". -/
def itemA : VideoItem := ⟨"a", emptySnippet, emptyCD, emptyStats⟩

/-- A bare response item for video "b". -/
def itemB : VideoItem := ⟨"b", emptySnippet, emptyCD, emptyStats⟩

/-- A response item for video "v" whose parsed view count is negative. -/
def itemNeg : VideoItem := ⟨"v", emptySnippet, emptyCD, ⟨some (-5), none, none⟩⟩

/-- A response item for video "v" with mixed statistics. -/
def itemStats : VideoItem := ⟨"v", emptySnippet, emptyCD, ⟨some 7, none, some 0⟩⟩

/-- A comment-threads response item with one reply. -/
def sampleThreadItem : ThreadItem :=
  ⟨⟨some "nice", none, some 3, some "2024-01-01"⟩,
   [⟨some "reply", none, some 1, none⟩]⟩

/-- A comments oracle that always fails with the API error. -/
def capiErr : String → Except YouTubeAPIError (List ThreadItem) :=
  fun _ => Except.error ⟨"comment fetch failed"⟩

/-- A comments oracle that always returns one thread. -/
def capiOk : String → Except YouTubeAPIError (List ThreadItem) :=
  fun _ => Except.ok [sampleThreadItem]

/-- A videos oracle answering every batch with the single item for "a". -/
def apiOne : List String → List VideoItem := fun _ => [itemA]

/-- A videos oracle answering every batch with items for "b" and "a" in
that (permuted) order. -/
def apiPerm : List String → List VideoItem := fun _ => [itemB, itemA]

/-- A videos oracle answering every batch with the negative-count item. -/
def apiNeg : List String → List VideoItem := fun _ => [itemNeg]

/-- A videos oracle answering every batch with the mixed-statistics item. -/
def apiStats : List String → List VideoItem := fun _ => [itemStats]

/-- A per-ID detail table knowing only video "a". -/
def detailsW : String → Option VideoItem :=
  fun id => if id = "a" then some itemA else none

/-- The videos oracle induced by `detailsW`: it answers each batch with
the known items, in the order the batch requested them. -/
def apiW : List String → List VideoItem := fun chunk => chunk.filterMap detailsW

/-!
## Lemmas about `chunked`
-/

theorem chunked_nil {α : Type} (n : Nat) : chunked ([] : List α) n = [] := by
  unfold chunked pyRange
  have h : (List.length ([] : List α) + n - 1) / n = 0 := by
    cases n with
    | zero => simp
    | succ m => exact Nat.div_eq_of_lt (by simp)
  rw [h]
  rfl

/-- Unrolling `chunked` once on a non-empty list (for a positive size):
the first chunk is the `n`-prefix, the rest chunk the `n`-suffix. -/
theorem chunked_cons {α : Type} (n : Nat) (hn : 1 ≤ n) (a : α) (l : List α) :
    chunked (a :: l) n = (a :: l).take n :: chunked ((a :: l).drop n) n := by
  have hn0 : 0 < n := hn
  have hcount : ((a :: l).length + n - 1) / n
      = (((a :: l).drop n).length + n - 1) / n + 1 := by
    rw [List.length_drop, List.length_cons]
    rcases le_or_lt (l.length + 1) n with hle | hlt
    · have h1 : l.length + 1 + n - 1 = l.length + n := by omega
      have h2 : l.length + 1 - n + n - 1 = n - 1 := by omega
      rw [h1, h2, Nat.add_div_right _ hn0,
        Nat.div_eq_of_lt (by omega : l.length < n),
        Nat.div_eq_of_lt (by omega : n - 1 < n)]
    · have h1 : l.length + 1 + n - 1 = l.length - n + n + n := by omega
      have h2 : l.length + 1 - n + n - 1 = l.length - n + n := by omega
      rw [h1, h2, Nat.add_div_right _ hn0]
  unfold chunked pyRange
  rw [hcount, List.range_succ_eq_map]
  simp only [List.map_cons, List.map_map, Function.comp_apply, Nat.zero_mul,
    List.drop_zero]
  congr 1
  apply List.map_congr_left
  intro i _
  simp only [Function.comp_apply]
  rw [List.drop_drop]
  have hsm : Nat.succ i * n = n + i * n := by
    rw [Nat.succ_mul, Nat.add_comm]
  rw [hsm]

/-- Chunking loses nothing: the chunks concatenate back to the list. -/
theorem chunked_flatten {α : Type} (n : Nat) (hn : 1 ≤ n) (lst : List α) :
    (chunked lst n).flatten = lst := by
  match lst with
  | [] => rw [chunked_nil]; rfl
  | a :: l =>
    rw [chunked_cons n hn a l, List.flatten_cons,
      chunked_flatten n hn ((a :: l).drop n)]
    exact List.take_append_drop n (a :: l)
termination_by lst.length
decreasing_by
  rw [List.length_drop]
  simp only [List.length_cons]
  omega

/-- The chunk at index `i` (as produced by the comprehension). -/
theorem chunked_getElem {α : Type} (lst : List α) (n i : Nat)
    (h : i < (chunked lst n).length) :
    (chunked lst n)[i] = (lst.drop (i * n)).take n := by
  unfold chunked pyRange at h ⊢
  rw [List.getElem_map, List.getElem_map, List.getElem_range]

/-- The number of chunks is `(length + size - 1) / size`. -/
theorem chunked_length {α : Type} (lst : List α) (n : Nat) :
    (chunked lst n).length = (lst.length + n - 1) / n := by
  unfold chunked pyRange
  rw [List.length_map, List.length_map, List.length_range]

/-- C7: chunking a list of N IDs into groups of size 50 yields exactly
ceil(N/50) groups — the count is (N + 49) / 50, equivalently the unique k
with N ≤ 50 * k < N + 50 — each group of size exactly 50 except possibly
the last, which has size at most 50. -/
theorem c7_chunked_fifty_shape (lst : List String) :
    (chunked lst 50).length = (lst.length + 49) / 50 ∧
    lst.length ≤ 50 * (chunked lst 50).length ∧
    50 * (chunked lst 50).length < lst.length + 50 ∧
    (∀ c ∈ (chunked lst 50).dropLast, c.length = 50) ∧
    (∀ c ∈ chunked lst 50, c.length ≤ 50) := by
  have hlen : (chunked lst 50).length = (lst.length + 49) / 50 := by
    have h50 : lst.length + 50 - 1 = lst.length + 49 := by omega
    rw [chunked_length, h50]
  have hdm := Nat.div_add_mod (lst.length + 49) 50
  have hm : (lst.length + 49) % 50 < 50 := Nat.mod_lt _ (by omega)
  refine ⟨hlen, by omega, by omega, ?_, ?_⟩
  · intro c hc
    rw [List.mem_iff_getElem] at hc
    obtain ⟨i, hi, hceq⟩ := hc
    have hi2 : i < (chunked lst 50).length := by
      have := List.length_dropLast (chunked lst 50)
      omega
    rw [List.getElem_dropLast, chunked_getElem lst 50 i hi2] at hceq
    have hik : i + 1 < (chunked lst 50).length := by
      have := List.length_dropLast (chunked lst 50)
      omega
    rw [hlen] at hik
    rw [← hceq]
    apply List.length_take_of_le
    rw [List.length_drop]
    omega
  · intro c hc
    unfold chunked at hc
    rw [List.mem_map] at hc
    obtain ⟨i, _, hceq⟩ := hc
    rw [← hceq]
    exact List.length_take_le 50 _

/-- Witness for C7 at a concrete three-element list: its single chunk is
a member and has length at most 50. -/
theorem c7_chunked_fifty_shape_witness :
    ["a", "b", "c"] ∈ chunked ["a", "b", "c"] 50 ∧
    (["a", "b", "c"] : List String).length ≤ 50 :=
  ⟨by decide, (c7_chunked_fifty_shape ["a", "b", "c"]).2.2.2.2
    ["a", "b", "c"] (by decide)⟩

/-- C10: for every list and every chunk size n ≥ 1, the chunks of
`chunked lst n` concatenate, in order, back to `lst` — nothing lost,
nothing duplicated, order preserved. -/
theorem c10_chunked_concat {α : Type} (lst : List α) (n : Nat) (hn : 1 ≤ n) :
    (chunked lst n).flatten = lst :=
  chunked_flatten n hn lst

/-- Witness for C10 at a concrete list and chunk size 2. -/
theorem c10_chunked_concat_witness :
    1 ≤ 2 ∧ (chunked [1, 2, 3] 2).flatten = [1, 2, 3] :=
  ⟨by decide, c10_chunked_concat [1, 2, 3] 2 (by decide)⟩

/-!
## Lemmas about the Playlist Paginator
-/

/-- With no maximum, the item loop appends the whole page. -/
theorem processItems_none (page : List String) :
    ∀ acc, processItems none acc page = Sum.inr (acc ++ page) := by
  induction page with
  | nil => intro acc; simp [processItems]
  | cons vid rest ih =>
    intro acc
    simp only [processItems, ih (acc ++ [vid]), List.append_assoc,
      List.singleton_append]

/-- With no maximum, the page loop appends every delivered page in order. -/
theorem pagesLoop_none (pages : List (List String)) :
    ∀ acc, pagesLoop none acc pages = acc ++ pages.flatten := by
  induction pages with
  | nil => intro acc; simp [pagesLoop]
  | cons page rest ih =>
    intro acc
    simp only [pagesLoop, processItems_none, ih (acc ++ page),
      List.flatten_cons, List.append_assoc]

/-- With a positive maximum not yet reached, the item loop either hits the
cap inside the page — returning the `m`-prefix of accumulator plus page —
or ends the page with the whole page appended. -/
theorem processItems_some (m : Nat) (page : List String) :
    ∀ acc : List String, acc.length < m →
    processItems (some m) acc page =
      (if m ≤ acc.length + page.length then Sum.inl ((acc ++ page).take m)
       else Sum.inr (acc ++ page)) := by
  induction page with
  | nil =>
    intro acc hacc
    rw [processItems, List.length_nil, Nat.add_zero, if_neg (by omega),
      List.append_nil]
  | cons vid rest ih =>
    intro acc hacc
    rw [processItems]
    simp only [List.length_append, List.length_singleton, List.length_cons,
      List.length_nil, Nat.zero_add]
    by_cases h : m ≤ acc.length + 1
    · have hm1 : m = acc.length + 1 := by omega
      rw [if_pos (by omega), if_pos (by omega), hm1]
      have htake : (acc ++ vid :: rest).take (acc.length + 1)
          = acc ++ (vid :: rest).take 1 := List.take_append 1
      rw [htake, List.take_succ_cons, List.take_zero]
    · rw [if_neg (by omega)]
      have hlen2 : (acc ++ [vid]).length < m := by
        simp only [List.length_append, List.length_singleton,
          List.length_cons, List.length_nil, Nat.zero_add]
        omega
      rw [ih (acc ++ [vid]) hlen2]
      simp only [List.length_append, List.length_singleton, List.length_cons,
        List.length_nil, Nat.zero_add, List.append_assoc,
        List.singleton_append]
      have harith : acc.length + 1 + rest.length = acc.length + (rest.length + 1) := by
        omega
      rw [harith]

/-- With a positive maximum not yet reached, the page loop returns the
`m`-prefix of the full concatenation when the cap is reachable, and the
full concatenation otherwise. -/
theorem pagesLoop_some (m : Nat) (pages : List (List String)) :
    ∀ acc : List String, acc.length < m →
    pagesLoop (some m) acc pages =
      (if m ≤ acc.length + pages.flatten.length
       then (acc ++ pages.flatten).take m
       else acc ++ pages.flatten) := by
  induction pages with
  | nil =>
    intro acc hacc
    rw [pagesLoop]
    rw [if_neg (show ¬ m ≤ acc.length + ([] : List (List String)).flatten.length by
      simp only [List.flatten_nil, List.length_nil]; omega)]
    simp only [List.flatten_nil, List.append_nil]
  | cons page rest ih =>
    intro acc hacc
    rw [pagesLoop, processItems_some m page acc hacc]
    by_cases h : m ≤ acc.length + page.length
    · rw [if_pos h]
      show (acc ++ page).take m = _
      rw [if_pos (show m ≤ acc.length + (page :: rest).flatten.length by
        rw [List.flatten_cons, List.length_append]; omega)]
      rw [List.flatten_cons, ← List.append_assoc]
      rw [show ((acc ++ page) ++ rest.flatten).take m = (acc ++ page).take m from
        List.take_append_of_le_length (by rw [List.length_append]; omega)]
    · rw [if_neg h]
      show pagesLoop (some m) (acc ++ page) rest = _
      rw [ih (acc ++ page) (by rw [List.length_append]; omega)]
      rw [List.flatten_cons, ← List.append_assoc]
      simp only [List.length_append]
      rw [Nat.add_assoc]

/-- C1 counterexample: on the one-page playlist `[["a"]]` with cap 0 —
a cap smaller than the playlist size 1 — the code returns `["a"]`, of
length 1, not a list of length 0: the cap test only fires after an item
has been appended. -/
theorem c1_paginator_counterexample :
    get_all_video_ids_from_playlist [["a"]] (some 0) = ["a"] ∧
    (get_all_video_ids_from_playlist [["a"]] (some 0)).length ≠ 0 := by
  constructor
  · decide
  · decide

/-- C1 (amended): with no maximum the paginator returns the concatenation
of the delivered pages in order; for every POSITIVE cap m the result is
exactly the m-prefix of the uncapped result, so its length is exactly m
whenever m is at most the playlist size.  (A cap of 0 is excluded: the
code then still returns the first item, see the counterexample.) -/
theorem c1_paginator_concat_and_cap (pages : List (List String)) (m : Nat)
    (hm : 1 ≤ m) :
    get_all_video_ids_from_playlist pages none = pages.flatten ∧
    get_all_video_ids_from_playlist pages (some m)
      = (get_all_video_ids_from_playlist pages none).take m ∧
    (m ≤ pages.flatten.length →
      (get_all_video_ids_from_playlist pages (some m)).length = m) := by
  have hnone : get_all_video_ids_from_playlist pages none = pages.flatten := by
    unfold get_all_video_ids_from_playlist
    rw [pagesLoop_none, List.nil_append]
  have hsome : get_all_video_ids_from_playlist pages (some m)
      = pages.flatten.take m := by
    unfold get_all_video_ids_from_playlist
    rw [pagesLoop_some m pages [] (by simp only [List.length_nil]; omega)]
    by_cases h : m ≤ pages.flatten.length
    · rw [if_pos (by simp only [List.length_nil]; omega), List.nil_append]
    · rw [if_neg (by simp only [List.length_nil]; omega), List.nil_append,
        List.take_of_length_le (by omega)]
  refine ⟨hnone, by rw [hsome, hnone], ?_⟩
  intro hle
  rw [hsome, List.length_take_of_le hle]

/-- Witness for C1 at a two-page playlist (pages of 2 and 1 items) and
cap 2: the capped result is the 2-prefix of the uncapped one and has
length exactly 2. -/
theorem c1_paginator_concat_and_cap_witness :
    1 ≤ 2 ∧
    get_all_video_ids_from_playlist [["a", "b"], ["c"]] (some 2)
      = (get_all_video_ids_from_playlist [["a", "b"], ["c"]] none).take 2 ∧
    (get_all_video_ids_from_playlist [["a", "b"], ["c"]] (some 2)).length = 2 :=
  ⟨by decide,
   (c1_paginator_concat_and_cap [["a", "b"], ["c"]] 2 (by decide)).2.1,
   (c1_paginator_concat_and_cap [["a", "b"], ["c"]] 2 (by decide)).2.2
     (by decide)⟩

/-!
## Comment Sampler claims
-/

/-- C4 counterexample: a thread whose top-level snippet has
`textDisplay` PRESENT but equal to `""` and `textOriginal = "hi"`.
The claim says the text equals the (present) display field, i.e. `""`;
the code yields `"hi"`, because Python `or` skips the falsy empty
string. -/
theorem c4_text_resolution_counterexample :
    (get_comments_by_video_id "v" 20 2
        [⟨⟨some "", some "hi", none, none⟩, []⟩]).map
      (fun t => t.topLevelComment.text) = ["hi"] ∧
    ("hi" : String) ≠ "" := by
  constructor
  · rfl
  · decide

/-- C4 (amended): for every comment snippet (top-level and replies both go
through `summarize`), the text equals the display field when it is present
and NON-EMPTY; when the display field is absent, the text equals the
original field when present, else ""; when the display field is present
but empty, the text falls through to the original field when that is
present and non-empty, else "". -/
theorem c4_text_resolution (s : CommentSnippet) :
    (∀ t, s.textDisplay = some t → t ≠ "" → (summarize s).text = t) ∧
    (s.textDisplay = none →
      ∀ u, s.textOriginal = some u → (summarize s).text = u) ∧
    (s.textDisplay = some "" →
      ∀ u, s.textOriginal = some u → u ≠ "" → (summarize s).text = u) ∧
    ((s.textDisplay = none ∨ s.textDisplay = some "") →
      (s.textOriginal = none ∨ s.textOriginal = some "") →
      (summarize s).text = "") := by
  refine ⟨?_, ?_, ?_, ?_⟩
  · intro t ht hne
    simp [summarize, pyStrOr, ht, hne]
  · intro hd u hu
    by_cases he : u = ""
    · simp [summarize, pyStrOr, hd, hu, he]
    · simp [summarize, pyStrOr, hd, hu, he]
  · intro hd u hu hne
    simp [summarize, pyStrOr, hd, hu, hne]
  · intro hd ho
    rcases hd with h | h <;> rcases ho with h2 | h2 <;>
      simp [summarize, pyStrOr, h, h2]

/-- Witness for C4 at two concrete snippets: only `textOriginal` set
yields that value; neither field set yields "". -/
theorem c4_text_resolution_witness :
    (summarize ⟨none, some "hi", none, none⟩).text = "hi" ∧
    (summarize ⟨none, none, none, none⟩).text = "" :=
  ⟨(c4_text_resolution ⟨none, some "hi", none, none⟩).2.1 rfl "hi" rfl,
   (c4_text_resolution ⟨none, none, none, none⟩).2.2.2
     (Or.inl rfl) (Or.inl rfl)⟩

/-- C5 counterexample: cap `max_topLevelComments = 1` but a response
carrying two thread items: the returned list has length 2 > 1 — the code
never truncates top-level items (the cap is only sent as the request's
`maxResults` parameter). -/
theorem c5_caps_counterexample :
    ¬ (get_comments_by_video_id "v" 1 2
        [⟨⟨none, none, none, none⟩, []⟩,
         ⟨⟨none, none, none, none⟩, []⟩]).length ≤ 1 := by
  decide

/-- C5 (amended): for every video ID, caps and response: the thread list
has exactly one entry per response item — hence its length is bounded by
`max_topLevelComments` exactly when the response itself contains at most
that many items (the code relies on the API honoring `maxResults`) —
while each thread's replies are the first `max_replies` replies of its
item in response order, so at most `max_replies` of them. -/
theorem c5_caps (video_id : String) (maxT maxR : Nat)
    (items : List ThreadItem) :
    (get_comments_by_video_id video_id maxT maxR items).length
      = items.length ∧
    (items.length ≤ maxT →
      (get_comments_by_video_id video_id maxT maxR items).length ≤ maxT) ∧
    (∀ t ∈ get_comments_by_video_id video_id maxT maxR items,
      t.replies.length ≤ maxR) ∧
    (∀ t ∈ get_comments_by_video_id video_id maxT maxR items,
      ∃ item ∈ items, t.replies = (item.replies.take maxR).map summarize) := by
  have hlen : (get_comments_by_video_id video_id maxT maxR items).length
      = items.length := by
    rw [get_comments_by_video_id, List.length_map]
  refine ⟨hlen, ?_, ?_, ?_⟩
  · intro h
    rw [hlen]
    exact h
  · intro t ht
    rw [get_comments_by_video_id, List.mem_map] at ht
    obtain ⟨item, _, hteq⟩ := ht
    rw [← hteq]
    show ((item.replies.take maxR).map summarize).length ≤ maxR
    rw [List.length_map]
    exact List.length_take_le maxR item.replies
  · intro t ht
    rw [get_comments_by_video_id, List.mem_map] at ht
    obtain ⟨item, hmem, hteq⟩ := ht
    exact ⟨item, hmem, by rw [← hteq]⟩

/-- Witness for C5: a concrete response with one item and three replies
under caps (20, 2): one item ≤ 20, so the result length is ≤ 20. -/
theorem c5_caps_witness :
    ([(⟨⟨some "t", none, none, none⟩,
        [⟨some "r1", none, none, none⟩, ⟨some "r2", none, none, none⟩,
         ⟨some "r3", none, none, none⟩]⟩ : ThreadItem)].length ≤ 20) ∧
    (get_comments_by_video_id "v" 20 2
        [⟨⟨some "t", none, none, none⟩,
          [⟨some "r1", none, none, none⟩, ⟨some "r2", none, none, none⟩,
           ⟨some "r3", none, none, none⟩]⟩]).length ≤ 20 :=
  ⟨by decide,
   (c5_caps "v" 20 2
      [⟨⟨some "t", none, none, none⟩,
        [⟨some "r1", none, none, none⟩, ⟨some "r2", none, none, none⟩,
         ⟨some "r3", none, none, none⟩]⟩]).2.1 (by decide)⟩

/-!
## Video Enricher claims
-/

/-- C9: with the credential absent, `youtube_get_data_by_url` returns the
API error immediately and issues no HTTP request at all (empty request
trace), for every endpoint, parameter set and transport. -/
theorem c9_no_request_without_key {β : Type} (endpoint : String)
    (params : List Param) (http : HttpRequest → HttpResponse β) :
    youtube_get_data_by_url none http endpoint params
      = (Except.error ⟨apiKeyMissingMsg⟩, []) := rfl

/-- C2: if the comment fetch for video ID v fails with the API error,
then (a) every record built for a response item carrying that ID has
`comments = []`, and (b) the whole run returns exactly what it would
return had v's fetch succeeded with an empty thread list — so every other
video's record is unchanged and the failure never escapes
`get_video_details`. -/
theorem c2_comment_failure_isolated
    (api : List String → List VideoItem)
    (commentsApi : String → Except YouTubeAPIError (List ThreadItem))
    (video_ids : List String) (v : String) (e : YouTubeAPIError)
    (hv : commentsApi v = Except.error e) :
    (∀ r ∈ get_video_details api commentsApi video_ids,
      r.id = v → r.comments = []) ∧
    get_video_details api commentsApi video_ids
      = get_video_details api
          (fun x => if x = v then Except.ok [] else commentsApi x)
          video_ids := by
  constructor
  · intro r hr hid
    rw [get_video_details, List.mem_flatten] at hr
    obtain ⟨l, hl, hrl⟩ := hr
    rw [List.mem_map] at hl
    obtain ⟨chunk, _, hleq⟩ := hl
    rw [← hleq, List.mem_map] at hrl
    obtain ⟨item, _, hreq⟩ := hrl
    have hidv : item.id = v := by
      rw [← hid, ← hreq]
      rfl
    rw [← hreq]
    show fetchCommentsCaught commentsApi item.id = []
    rw [hidv, fetchCommentsCaught, hv]
  · rw [get_video_details, get_video_details]
    congr 1
    apply List.map_congr_left
    intro chunk _
    apply List.map_congr_left
    intro item _
    congr 1
    by_cases hx : item.id = v
    · rw [hx, fetchCommentsCaught, fetchCommentsCaught, hv, if_pos rfl]
      rfl
    · rw [fetchCommentsCaught, fetchCommentsCaught, if_neg hx]

/-- Witness for C2: with the always-failing comments oracle on videos
"a","b", the run equals the run where "a" succeeds with no comments. -/
theorem c2_comment_failure_isolated_witness :
    capiErr "a" = Except.error ⟨"comment fetch failed"⟩ ∧
    get_video_details apiPerm capiErr ["a", "b"]
      = get_video_details apiPerm
          (fun x => if x = "a" then Except.ok [] else capiErr x)
          ["a", "b"] :=
  ⟨rfl, (c2_comment_failure_isolated apiPerm capiErr ["a", "b"] "a"
      ⟨"comment fetch failed"⟩ rfl).2⟩

/-- C3 counterexample: on ID list ["a"], with the same videos response
and a comments oracle delivering one thread, the two versions return
DIFFERENT record lists (rendered as the Python dictionaries they build):
the `run_roast_improve.py` version has no `comments` entry at all. -/
theorem c3_two_versions_counterexample :
    ¬ ((RunRoastImprove.get_video_details apiOne ["a"]).map
        RunRoastImprove.VideoRecord.toDict
      = (get_video_details apiOne capiOk ["a"]).map VideoRecord.toDict) := by
  decide

/-- C3 (amended): for every input and identical API responses, the
`run_roast_improve.py` version returns exactly the `youtube_scrappers.py`
records with the `comments` entry dropped; in particular it performs no
comments call (its output does not depend on the comments oracle at all)
and its records carry no comment sample. -/
theorem c3_run_version_drops_comments
    (api : List String → List VideoItem)
    (commentsApi : String → Except YouTubeAPIError (List ThreadItem))
    (video_ids : List String) :
    RunRoastImprove.get_video_details api video_ids
      = (get_video_details api commentsApi video_ids).map dropComments := by
  rw [get_video_details, RunRoastImprove.get_video_details, List.map_flatten,
    List.map_map]
  congr 1
  apply List.map_congr_left
  intro chunk _
  simp only [Function.comp_apply, List.map_map]
  apply List.map_congr_left
  intro item _
  rfl

/-- Mapping the item IDs of a per-ID lookup over a request list gives the
requested IDs that the lookup knows, in request order. -/
theorem filterMap_details_map_id (details : String → Option VideoItem)
    (hid : ∀ id item, details id = some item → item.id = id) :
    ∀ l : List String, (l.filterMap details).map VideoItem.id
      = l.filter (fun id => (details id).isSome) := by
  intro l
  induction l with
  | nil => rfl
  | cons x xs ih =>
    cases hx : details x with
    | none => simp [List.filterMap_cons, List.filter_cons, hx, ih]
    | some item =>
      simp [List.filterMap_cons, List.filter_cons, hx, ih, hid x item hx]

/-- The detail table `detailsW` only ever answers with items whose ID is
the requested one. -/
theorem detailsW_consistent :
    ∀ id item, detailsW id = some item → item.id = id := by
  intro id item h
  by_cases hcase : id = "a"
  · subst hcase
    have he : detailsW "a" = some itemA := rfl
    rw [he] at h
    injection h with h2
    rw [← h2]
    rfl
  · have he : detailsW id = none := by
      simp only [detailsW, if_neg hcase]
    rw [he] at h
    exact Option.noConfusion h

/-- C6 counterexample: input IDs ["a","b"], batch response listing full
items for "b" then "a" (a permutation of the requested order): the output
records appear in response order ["b","a"], not in the input order the
claim demands for every family of batch responses. -/
theorem c6_order_counterexample :
    (get_video_details apiPerm capiErr ["a", "b"]).map VideoRecord.id
        = ["b", "a"] ∧
    ¬ (get_video_details apiPerm capiErr ["a", "b"]).map VideoRecord.id
        = ["a", "b"] := by
  constructor
  · decide
  · decide

/-- C6 (amended): when each batch response lists exactly the items of a
per-ID detail table for the requested IDs, in request order and with
matching IDs (so the API may omit IDs but not reorder or inject), the
output record IDs are exactly the input IDs that the table knows, in
input order: omitted videos are silently absent and the relative order of
the returned records matches the input order; when nothing is omitted the
output is one record per ID in input order. -/
theorem c6_order_preserved (details : String → Option VideoItem)
    (api : List String → List VideoItem)
    (commentsApi : String → Except YouTubeAPIError (List ThreadItem))
    (video_ids : List String)
    (hapi : ∀ chunk, api chunk = chunk.filterMap details)
    (hid : ∀ id item, details id = some item → item.id = id) :
    (get_video_details api commentsApi video_ids).map VideoRecord.id
      = video_ids.filter (fun id => (details id).isSome) ∧
    ((∀ id ∈ video_ids, (details id).isSome = true) →
      (get_video_details api commentsApi video_ids).map VideoRecord.id
        = video_ids) := by
  have hmain : (get_video_details api commentsApi video_ids).map VideoRecord.id
      = video_ids.filter (fun id => (details id).isSome) := by
    rw [get_video_details, List.map_flatten, List.map_map]
    have hpt : ∀ chunk ∈ chunked video_ids 50,
        (List.map VideoRecord.id ∘ fun chunk =>
          (api chunk).map (fun item =>
            mkRecord item (fetchCommentsCaught commentsApi item.id))) chunk
        = chunk.filter (fun id => (details id).isSome) := by
      intro chunk _
      simp only [Function.comp_apply]
      rw [hapi chunk, List.map_map]
      have hpe : (chunk.filterMap details).map
          (VideoRecord.id ∘ fun item =>
            mkRecord item (fetchCommentsCaught commentsApi item.id))
          = (chunk.filterMap details).map VideoItem.id :=
        List.map_congr_left (fun item _ => rfl)
      rw [hpe, filterMap_details_map_id details hid chunk]
    rw [List.map_congr_left hpt, ← List.filter_flatten,
      chunked_flatten 50 (by omega) video_ids]
  refine ⟨hmain, ?_⟩
  intro hall
  rw [hmain]
  apply List.filter_eq_self.mpr
  intro a ha
  exact hall a ha

/-- Witness for C6: with the detail table knowing only "a" and the induced
order-respecting oracle, the run on ["a","x"] returns exactly the record
for "a" ("x" is omitted), and the run on ["a"] returns one record per ID. -/
theorem c6_order_preserved_witness :
    (get_video_details apiW capiErr ["a", "x"]).map VideoRecord.id
      = (["a", "x"].filter (fun id => (detailsW id).isSome)) ∧
    (get_video_details apiW capiErr ["a"]).map VideoRecord.id = ["a"] :=
  ⟨(c6_order_preserved detailsW apiW capiErr ["a", "x"] (fun _ => rfl)
      detailsW_consistent).1,
   (c6_order_preserved detailsW apiW capiErr ["a"] (fun _ => rfl)
      detailsW_consistent).2 (by decide)⟩

/-- C8 counterexample: a batch response whose `viewCount` parses to -5
(Python `int` accepts a negative numeral): the produced record's
`viewCount` is -5, which is not a non-negative integer as the claim
demands of every produced record. -/
theorem c8_stats_counterexample :
    (get_video_details apiNeg capiErr ["v"]).map VideoRecord.viewCount
        = [-5] ∧
    ¬ (0 : Int) ≤ -5 := by
  constructor
  · decide
  · decide

/-- C8 (amended): every record produced by `get_video_details` takes its
`viewCount`, `likeCount` and `commentCount` from some response item as the
parsed integer with default 0: each field is 0 whenever the upstream field
is absent, and it is non-negative whenever the upstream value (if any) is
non-negative — but the code adds no sign guard, so a negative upstream
value passes through (see the counterexample). -/
theorem c8_stats_defaults (api : List String → List VideoItem)
    (commentsApi : String → Except YouTubeAPIError (List ThreadItem))
    (video_ids : List String) (r : VideoRecord)
    (hr : r ∈ get_video_details api commentsApi video_ids) :
    ∃ chunk ∈ chunked video_ids 50, ∃ item ∈ api chunk,
      r.viewCount = item.statistics.viewCount.getD 0 ∧
      r.likeCount = item.statistics.likeCount.getD 0 ∧
      r.commentCount = item.statistics.commentCount.getD 0 ∧
      (item.statistics.viewCount = none → r.viewCount = 0) ∧
      (item.statistics.likeCount = none → r.likeCount = 0) ∧
      (item.statistics.commentCount = none → r.commentCount = 0) ∧
      ((∀ x, item.statistics.viewCount = some x → 0 ≤ x) → 0 ≤ r.viewCount) ∧
      ((∀ x, item.statistics.likeCount = some x → 0 ≤ x) → 0 ≤ r.likeCount) ∧
      ((∀ x, item.statistics.commentCount = some x → 0 ≤ x) →
        0 ≤ r.commentCount) := by
  rw [get_video_details, List.mem_flatten] at hr
  obtain ⟨l, hl, hrl⟩ := hr
  rw [List.mem_map] at hl
  obtain ⟨chunk, hchunk, hleq⟩ := hl
  rw [← hleq, List.mem_map] at hrl
  obtain ⟨item, hitem, hreq⟩ := hrl
  have hview : r.viewCount = item.statistics.viewCount.getD 0 := by
    rw [← hreq]
    rfl
  have hlike : r.likeCount = item.statistics.likeCount.getD 0 := by
    rw [← hreq]
    rfl
  have hcomm : r.commentCount = item.statistics.commentCount.getD 0 := by
    rw [← hreq]
    rfl
  refine ⟨chunk, hchunk, item, hitem, hview, hlike, hcomm, ?_, ?_, ?_,
    ?_, ?_, ?_⟩
  · intro h
    rw [hview, h]
    rfl
  · intro h
    rw [hlike, h]
    rfl
  · intro h
    rw [hcomm, h]
    rfl
  · intro h
    rw [hview]
    cases hvc : item.statistics.viewCount with
    | none => simp
    | some x => simpa using h x hvc
  · intro h
    rw [hlike]
    cases hvc : item.statistics.likeCount with
    | none => simp
    | some x => simpa using h x hvc
  · intro h
    rw [hcomm]
    cases hvc : item.statistics.commentCount with
    | none => simp
    | some x => simpa using h x hvc

/-- Witness for C8 at the mixed-statistics item (view count 7, like count
absent, comment count 0): the produced record matches the defaults. -/
theorem c8_stats_defaults_witness :
    ∃ chunk ∈ chunked ["v"] 50, ∃ item ∈ apiStats chunk,
      (mkRecord itemStats []).viewCount = item.statistics.viewCount.getD 0 ∧
      (mkRecord itemStats []).likeCount = item.statistics.likeCount.getD 0 ∧
      (mkRecord itemStats []).commentCount
        = item.statistics.commentCount.getD 0 ∧
      (item.statistics.viewCount = none → (mkRecord itemStats []).viewCount = 0) ∧
      (item.statistics.likeCount = none → (mkRecord itemStats []).likeCount = 0) ∧
      (item.statistics.commentCount = none →
        (mkRecord itemStats []).commentCount = 0) ∧
      ((∀ x, item.statistics.viewCount = some x → 0 ≤ x) →
        0 ≤ (mkRecord itemStats []).viewCount) ∧
      ((∀ x, item.statistics.likeCount = some x → 0 ≤ x) →
        0 ≤ (mkRecord itemStats []).likeCount) ∧
      ((∀ x, item.statistics.commentCount = some x → 0 ≤ x) →
        0 ≤ (mkRecord itemStats []).commentCount) :=
  c8_stats_defaults apiStats capiErr ["v"] (mkRecord itemStats []) (by decide)
